import Mathlib

/-!
Verification development for the yelp query-building and request-signing
library.  The Go source is shallowly embedded: each Go function becomes a
Lean function over explicit state (`SearchQuery` values are passed and
returned instead of mutated through a pointer), Go `float64` coordinate
values are modelled as rationals (the code only compares them against
integer bounds and formats them), Go machine integers are modelled as
`Int`, and the `uint8` bitmask as `Nat` (only the eight fixed bits are
ever OR-ed in, so no overflow can occur).
-/

/-- Modelled from the spec: the repository's `Error` type.  Its defining
file is not under src/; search.go constructs it as a struct literal with
two string fields, e.g. `Error{"SearchCoordinates", "Attempting to set
location for a second time"}`, and per spec section 7 an error identifies
the offending option category and a human-readable reason. -/
structure Error where
  Origin : String
  Description : String
deriving Repr, DecidableEq

/-- Wire key names, from the `searchIdentifierXXX` constant block. -/
def searchIdentifierTerm : String := "term"

def searchIdentifierLimit : String := "limit"

def searchIdentifierOffset : String := "offset"

def searchIdentifierSort : String := "sort"

def searchIdentifierCategory : String := "category_filter"

def searchIdentifierRadius : String := "radius_filter"

def searchIdentifierDeals : String := "deals_filter"

def searchIdentifierLocation : String := "location"

def searchIdentifierCoordinates : String := "ll"

def searchIdentifierCoordinatesHint : String := "cll"

def searchIdentifierBounds : String := "bounds"

/-- Bitmask values `searchBitMaskXXX` (Go: `1 << iota` over a `uint8`). -/
def searchBitMaskTerm : Nat := 1

def searchBitMaskLimit : Nat := 2

def searchBitMaskOffset : Nat := 4

def searchBitMaskSort : Nat := 8

def searchBitMaskCategory : Nat := 16

def searchBitMaskRadius : Nat := 32

def searchBitMaskDeals : Nat := 64

def searchBitMaskLocation : Nat := 128

/-- Go struct `searchQueryElement`: a name/value pair. -/
structure searchQueryElement where
  Name : String
  Value : String
deriving Repr, DecidableEq

/-- Go struct `SearchQuery`: the element list plus the duplicate-tracking
bitmask. -/
structure SearchQuery where
  queries : List searchQueryElement
  mask : Nat
deriving Repr, DecidableEq

/-- Go zero value `SearchQuery{}`: nil slice, zero mask (a fresh
container). -/
def emptySearchQuery : SearchQuery := ⟨[], 0⟩

/-- Go method `(q *SearchQuery) Append(name, value string)`: pushes a new
element at the end. -/
def SearchQuery.Append (q : SearchQuery) (name value : String) : SearchQuery :=
  { q with queries := q.queries ++ [⟨name, value⟩] }

/-- Go method `(q *SearchQuery) Sort()`: `sort.Sort(q)` where `Less(i,j)`
compares element names with the Go string `<`.  Go's comparison sort is
modelled by `mergeSort` under the corresponding boolean `≤` on names;
the spec leaves the order of equal-name elements unspecified. -/
def SearchQuery.Sort (q : SearchQuery) : SearchQuery :=
  { q with queries := q.queries.mergeSort (fun a b => a.Name ≤ b.Name) }

/-- Go method `(q *SearchQuery) String()`: elements joined as
`name=value` pairs separated by `&`; empty string for zero elements. -/
def SearchQuery.serialize (q : SearchQuery) : String :=
  match q.queries with
  | [] => ""
  | e :: rest =>
      rest.foldl (fun acc el => acc ++ "&" ++ el.Name ++ "=" ++ el.Value)
        (e.Name ++ "=" ++ e.Value)

/-- Go `strings.Replace(s, " ", "+", -1)`: replace every space with a
plus sign (for a single-character pattern this is a character map). -/
def replaceSpaceWithPlus (s : String) : String :=
  ⟨s.data.map (fun c => if c = ' ' then '+' else c)⟩

/-- Go `validLatitudeLongitude`: bounds check on the coordinate pair. -/
def validLatitudeLongitude (latitude longitude : Rat) : Bool :=
  !(latitude < -90 || latitude > 90 || longitude < -180 || longitude > 180)

/-- Decimal digits of the fractional part `num/den` (long division with
fuel; terminates exactly when the remainder reaches zero, which happens
for every dyadic rational within the fuel bound). -/
def fracDigits : Nat → Nat → Nat → String
  | 0, _, _ => ""
  | _, 0, _ => ""
  | fuel + 1, num, den =>
      let num10 := num * 10
      (Nat.toDigits 10 (num10 / den)).asString ++ fracDigits fuel (num10 % den) den

/-- Go `strconv.FormatFloat(x, 'f', -1, 64)` (shortest round-trip decimal),
modelled on rationals as the exact terminating decimal expansion; on the
dyadic rationals that float64 represents with short expansions the two
agree.  No theorem below inspects the digits this produces. -/
def formatFloat (q : Rat) : String :=
  let sign := if q < 0 then "-" else ""
  let a := |q|
  let ip := a.floor.toNat
  let fracNum := a.num.toNat - ip * a.den
  sign ++ (Nat.toDigits 10 ip).asString ++
    (if fracNum = 0 then "" else "." ++ fracDigits 1200 fracNum a.den)

/-- Go `fmt.Sprintf` `%f` verb (fixed six decimals), modelled on rationals
with round-half-up; strconv's round-to-nearest-even differs only on exact
decimal half-way ties.  No theorem below inspects the digits. -/
def fmtF6 (q : Rat) : String :=
  let sign := if q < 0 then "-" else ""
  let n := (|q| * 1000000 + 1/2).floor.toNat
  let ip := n / 1000000
  let fp := n % 1000000
  let fs := (Nat.toDigits 10 fp).asString
  sign ++ (Nat.toDigits 10 ip).asString ++ "." ++
    ⟨List.replicate (6 - fs.length) '0'⟩ ++ fs

/-- Go type `SearchCoordinates`. -/
structure SearchCoordinates where
  Latitude : Rat
  Longitude : Rat
deriving Repr, DecidableEq

/-- Go method `SearchCoordinates.Query`: duplicate-location check, then
coordinate validation, then append `ll=lat,lon` and set the location
bit.  The Go pointer mutation is modelled by returning the new state next
to the `error` result. -/
def SearchCoordinates.Query (sl : SearchCoordinates) (sq : SearchQuery) :
    Option Error × SearchQuery :=
  if sq.mask &&& searchBitMaskLocation ≠ 0 then
    (some ⟨"SearchCoordinates", "Attempting to set location for a second time"⟩, sq)
  else if validLatitudeLongitude sl.Latitude sl.Longitude = false then
    (some ⟨"SearchCoordinates",
      "Invalid latitude and/or longitude: " ++ fmtF6 sl.Latitude ++ ", " ++
        fmtF6 sl.Longitude⟩, sq)
  else
    let sq1 := sq.Append searchIdentifierCoordinates
      (formatFloat sl.Latitude ++ "," ++ formatFloat sl.Longitude)
    (none, { sq1 with mask := sq1.mask ||| searchBitMaskLocation })

/-- Go type `SearchLocation` (a named string type). -/
abbrev SearchLocation := String

/-- Go method `SearchLocation.Query`: duplicate-location check, then
append `location=<name with spaces replaced by +>` and set the location
bit.  Note: the code performs no non-emptiness validation. -/
def SearchLocation.Query (sl : SearchLocation) (sq : SearchQuery) :
    Option Error × SearchQuery :=
  if sq.mask &&& searchBitMaskLocation ≠ 0 then
    (some ⟨"SearchLocation", "Attempting to set location for a second time"⟩, sq)
  else
    let sq1 := sq.Append searchIdentifierLocation (replaceSpaceWithPlus sl)
    (none, { sq1 with mask := sq1.mask ||| searchBitMaskLocation })

/-- Go type `SearchLocationCoordinates`. -/
structure SearchLocationCoordinates where
  Location : String
  Latitude : Rat
  Longitude : Rat
deriving Repr, DecidableEq

/-- Go method `SearchLocationCoordinates.Query`.  Faithful to the source
order of operations: the `location` element is appended BEFORE the
coordinates are validated, so the invalid-coordinate error path returns a
container that already holds the new `location` element (the mask is
still untouched).  The `$f` in the error text reproduces the format-verb
typo in the source; Go renders the unconsumed second argument as an
`%!(EXTRA float64=...)` suffix, modelled here with `formatFloat`. -/
def SearchLocationCoordinates.Query (slc : SearchLocationCoordinates)
    (sq : SearchQuery) : Option Error × SearchQuery :=
  if sq.mask &&& searchBitMaskLocation ≠ 0 then
    (some ⟨"SearchLocationCoordinates",
      "Attempting to set location for a second time"⟩, sq)
  else
    let sq1 := sq.Append searchIdentifierLocation (replaceSpaceWithPlus slc.Location)
    if validLatitudeLongitude slc.Latitude slc.Longitude = false then
      (some ⟨"SearchLocationCoordinates",
        "Invalid latitude and/or longitude: " ++ fmtF6 slc.Latitude ++
          ", $f%!(EXTRA float64=" ++ formatFloat slc.Longitude ++ ")"⟩, sq1)
    else
      let sq2 := sq1.Append searchIdentifierCoordinatesHint
        (formatFloat slc.Latitude ++ "," ++ formatFloat slc.Longitude)
      (none, { sq2 with mask := sq2.mask ||| searchBitMaskLocation })

/-- Go type `SearchBounds`. -/
structure SearchBounds where
  SWLatitude : Rat
  SWLongitude : Rat
  NELatitude : Rat
  NELongitude : Rat
deriving Repr, DecidableEq

/-- Go method `SearchBounds.Query`: duplicate-location check, both corner
validations, then append `bounds=swlat,swlon|nelat,nelon` and set the
location bit. -/
def SearchBounds.Query (sb : SearchBounds) (sq : SearchQuery) :
    Option Error × SearchQuery :=
  if sq.mask &&& searchBitMaskLocation ≠ 0 then
    (some ⟨"SearchBounds", "Attempting to set location for a second time"⟩, sq)
  else if validLatitudeLongitude sb.SWLatitude sb.SWLongitude = false then
    (some ⟨"SearchBounds",
      "Invalid southwest latitude and/or longitude: " ++ fmtF6 sb.SWLatitude ++
        ", " ++ fmtF6 sb.SWLongitude⟩, sq)
  else if validLatitudeLongitude sb.NELatitude sb.NELongitude = false then
    (some ⟨"SearchBounds",
      "Invalid northeast latitude and/or longitude: " ++ fmtF6 sb.NELatitude ++
        ", " ++ fmtF6 sb.NELongitude⟩, sq)
  else
    let sq1 := sq.Append searchIdentifierBounds
      (formatFloat sb.SWLatitude ++ "," ++ formatFloat sb.SWLongitude ++ "|" ++
        formatFloat sb.NELatitude ++ "," ++ formatFloat sb.NELongitude)
    (none, { sq1 with mask := sq1.mask ||| searchBitMaskLocation })

/-- Go type `SearchTerms` (a named string-slice type). -/
abbrev SearchTerms := List String

/-- Go method `SearchTerms.Query`.  The loop `st[i] = strings.Replace(...)`
writes through the slice into the caller's backing array; the third
component of the result is the caller-visible content of that slice after
the call. -/
def SearchTerms.Query (st : SearchTerms) (sq : SearchQuery) :
    Option Error × SearchQuery × List String :=
  if sq.mask &&& searchBitMaskTerm ≠ 0 then
    (some ⟨"SearchTerms", "Attempting to set search terms a second time"⟩, sq, st)
  else
    let st1 := st.map replaceSpaceWithPlus
    let sq1 := sq.Append searchIdentifierTerm (String.intercalate "," st1)
    (none, { sq1 with mask := sq1.mask ||| searchBitMaskTerm }, st1)

/-- Go type `SearchLimit` (a named int type). -/
abbrev SearchLimit := Int

/-- Go method `SearchLimit.Query`: duplicate check, bounds check 0..20,
append `limit=<decimal>`, set the limit bit. -/
def SearchLimit.Query (sl : Int) (sq : SearchQuery) :
    Option Error × SearchQuery :=
  if sq.mask &&& searchBitMaskLimit ≠ 0 then
    (some ⟨"SearchLimit", "Attempting to set search limit a second time"⟩, sq)
  else if sl < 0 || sl > 20 then
    (some ⟨"SearchLimit", "Invalid search limit: " ++ toString sl⟩, sq)
  else
    let sq1 := sq.Append searchIdentifierLimit (toString sl)
    (none, { sq1 with mask := sq1.mask ||| searchBitMaskLimit })

/-- Go type `SearchOffset` (a named int type). -/
abbrev SearchOffset := Int

/-- Go method `SearchOffset.Query`: duplicate check, non-negativity check,
append `offset=<decimal>`, set the offset bit. -/
def SearchOffset.Query (so : Int) (sq : SearchQuery) :
    Option Error × SearchQuery :=
  if sq.mask &&& searchBitMaskOffset ≠ 0 then
    (some ⟨"SearchOffset", "Attempting to set search offset a second time"⟩, sq)
  else if so < 0 then
    (some ⟨"SearchOffset", "Invalid search offsets: " ++ toString so⟩, sq)
  else
    let sq1 := sq.Append searchIdentifierOffset (toString so)
    (none, { sq1 with mask := sq1.mask ||| searchBitMaskOffset })

/-- Go type `SearchSort` (a named int type). -/
abbrev SearchSort := Int

def SearchSortBestMatched : Int := 0

def SearchSortDistance : Int := 1

def SearchSortHighestRated : Int := 2

/-- Go method `SearchSort.Query`: duplicate check, range check over the
enum ordinals 0..2, append `sort=<decimal>`, set the sort bit. -/
def SearchSort.Query (ss : Int) (sq : SearchQuery) :
    Option Error × SearchQuery :=
  if sq.mask &&& searchBitMaskSort ≠ 0 then
    (some ⟨"SearchSort", "Attempting to set sorting method a second time"⟩, sq)
  else if ss < SearchSortBestMatched || ss > SearchSortHighestRated then
    (some ⟨"SearchSort", "Invalid sorting method: " ++ toString ss⟩, sq)
  else
    let sq1 := sq.Append searchIdentifierSort (toString ss)
    (none, { sq1 with mask := sq1.mask ||| searchBitMaskSort })

/-- Go type `SearchCategory` (a named int type used as an enum). -/
abbrev SearchCategory := Int

def SearchCategoryActive : Int := 0

def SearchCategoryArtsEntertainment : Int := 1

def SearchCategoryAutomotive : Int := 2

def SearchCategoryBeautySpas : Int := 3

def SearchCategoryGolf : Int := 4

def SearchCategoryNightlife : Int := 5

def SearchCategoryBars : Int := 6

def SearchCategoryRestaurants : Int := 7

def SearchCategoryTotal : Int := 8

/-- Go constant array `searchCategoryNames`. -/
def searchCategoryNames : List String :=
  ["active", "arts", "auto", "beautysvc", "golf", "nightlife", "bars", "restaurants"]

/-- Go type `SearchCategories` (a named slice type). -/
abbrev SearchCategories := List SearchCategory

/-- Tail of the comma-separated category string built by the loop in
`SearchCategories.Query` (elements after the first, each preceded by a
comma); `none` on the first invalid category, matching the early return
that discards the local buffer. -/
def searchCategoriesTail : List Int → Option String
  | [] => some ""
  | v :: rest =>
      if v < SearchCategoryActive || v ≥ SearchCategoryTotal then none
      else (searchCategoriesTail rest).map
        (fun s => "," ++ searchCategoryNames.getD v.toNat "" ++ s)

/-- Comma-separated category string of the whole list (first element
without a leading comma). -/
def searchCategoriesString : List Int → Option String
  | [] => some ""
  | v :: rest =>
      if v < SearchCategoryActive || v ≥ SearchCategoryTotal then none
      else (searchCategoriesTail rest).map
        (fun s => searchCategoryNames.getD v.toNat "" ++ s)

/-- Go method `SearchCategories.Query`: duplicate check, emptiness check,
per-element range check while joining names with commas (an invalid
element aborts before anything is appended), then append
`category_filter=<joined>` and set the category bit. -/
def SearchCategories.Query (sc : List Int) (sq : SearchQuery) :
    Option Error × SearchQuery :=
  if sq.mask &&& searchBitMaskCategory ≠ 0 then
    (some ⟨"SearchCategories",
      "Attempting to set the category filter a second time"⟩, sq)
  else if sc.length = 0 then
    (some ⟨"SearchCategories", "No search categories are specified"⟩, sq)
  else
    match searchCategoriesString sc with
    | none => (some ⟨"SearchCategory", "Invalid search category specified"⟩, sq)
    | some s =>
        let sq1 := sq.Append searchIdentifierCategory s
        (none, { sq1 with mask := sq1.mask ||| searchBitMaskCategory })

/-- Go type `SearchRadius` (a named int type). -/
abbrev SearchRadius := Int

/-- Go method `SearchRadius.Query`: duplicate check, bounds check
0..40000, append `radius_filter=<decimal>`, set the radius bit. -/
def SearchRadius.Query (sr : Int) (sq : SearchQuery) :
    Option Error × SearchQuery :=
  if sq.mask &&& searchBitMaskRadius ≠ 0 then
    (some ⟨"SearchRadius", "Attempting to set the radius filter a second time"⟩, sq)
  else if sr < 0 || sr > 40000 then
    (some ⟨"SearchRadius", "Invalid radius specified: " ++ toString sr⟩, sq)
  else
    let sq1 := sq.Append searchIdentifierRadius (toString sr)
    (none, { sq1 with mask := sq1.mask ||| searchBitMaskRadius })

/-- Go type `SearchDeals` (a named bool type). -/
abbrev SearchDeals := Bool

/-- Go method `SearchDeals.Query`: duplicate check, append
`deals_filter=true|false`, set the deals bit. -/
def SearchDeals.Query (sd : SearchDeals) (sq : SearchQuery) :
    Option Error × SearchQuery :=
  if sq.mask &&& searchBitMaskDeals ≠ 0 then
    (some ⟨"SearchDeals",
      "Attempting to set the deals search option a second time"⟩, sq)
  else
    let sq1 := if sd = true then sq.Append searchIdentifierDeals "true"
               else sq.Append searchIdentifierDeals "false"
    (none, { sq1 with mask := sq1.mask ||| searchBitMaskDeals })

/-- Closed sum over the eleven concrete implementations of the Go
`SearchQuerier` interface. -/
inductive SearchOption where
  | coordinates : SearchCoordinates → SearchOption
  | location : SearchLocation → SearchOption
  | locationCoordinates : SearchLocationCoordinates → SearchOption
  | bounds : SearchBounds → SearchOption
  | terms : SearchTerms → SearchOption
  | limit : Int → SearchOption
  | offset : Int → SearchOption
  | sort : Int → SearchOption
  | categories : List Int → SearchOption
  | radius : Int → SearchOption
  | deals : SearchDeals → SearchOption
deriving Repr, DecidableEq

/-- Dynamic dispatch of `SearchQuerier.Query` over the closed variant set
(the caller-visible slice state of `terms` is dropped here; it is studied
separately). -/
def SearchOption.Query : SearchOption → SearchQuery → Option Error × SearchQuery
  | .coordinates c, sq => SearchCoordinates.Query c sq
  | .location l, sq => SearchLocation.Query l sq
  | .locationCoordinates lc, sq => SearchLocationCoordinates.Query lc sq
  | .bounds b, sq => SearchBounds.Query b sq
  | .terms ts, sq => ((SearchTerms.Query ts sq).1, (SearchTerms.Query ts sq).2.1)
  | .limit n, sq => SearchLimit.Query n sq
  | .offset n, sq => SearchOffset.Query n sq
  | .sort n, sq => SearchSort.Query n sq
  | .categories cs, sq => SearchCategories.Query cs sq
  | .radius n, sq => SearchRadius.Query n sq
  | .deals b, sq => SearchDeals.Query b sq

/-- Category bit of each option variant; the four location-family
variants share the single location bit. -/
def SearchOption.categoryMask : SearchOption → Nat
  | .coordinates _ => searchBitMaskLocation
  | .location _ => searchBitMaskLocation
  | .locationCoordinates _ => searchBitMaskLocation
  | .bounds _ => searchBitMaskLocation
  | .terms _ => searchBitMaskTerm
  | .limit _ => searchBitMaskLimit
  | .offset _ => searchBitMaskOffset
  | .sort _ => searchBitMaskSort
  | .categories _ => searchBitMaskCategory
  | .radius _ => searchBitMaskRadius
  | .deals _ => searchBitMaskDeals

/-- Payload validity: exactly the domain checks the corresponding `Query`
method performs after its duplicate check. -/
def SearchOption.validPayload : SearchOption → Bool
  | .coordinates c => validLatitudeLongitude c.Latitude c.Longitude
  | .location _ => true
  | .locationCoordinates lc => validLatitudeLongitude lc.Latitude lc.Longitude
  | .bounds b => validLatitudeLongitude b.SWLatitude b.SWLongitude &&
      validLatitudeLongitude b.NELatitude b.NELongitude
  | .terms _ => true
  | .limit n => !(n < 0 || n > 20)
  | .offset n => !(n < 0)
  | .sort n => !(n < SearchSortBestMatched || n > SearchSortHighestRated)
  | .categories cs => !(cs.length = 0) && (searchCategoriesString cs).isSome
  | .radius n => !(n < 0 || n > 40000)
  | .deals _ => true

/-- Literal duplicate-category error each variant returns when its
category bit is already set. -/
def SearchOption.duplicateError : SearchOption → Error
  | .coordinates _ => ⟨"SearchCoordinates", "Attempting to set location for a second time"⟩
  | .location _ => ⟨"SearchLocation", "Attempting to set location for a second time"⟩
  | .locationCoordinates _ =>
      ⟨"SearchLocationCoordinates", "Attempting to set location for a second time"⟩
  | .bounds _ => ⟨"SearchBounds", "Attempting to set location for a second time"⟩
  | .terms _ => ⟨"SearchTerms", "Attempting to set search terms a second time"⟩
  | .limit _ => ⟨"SearchLimit", "Attempting to set search limit a second time"⟩
  | .offset _ => ⟨"SearchOffset", "Attempting to set search offset a second time"⟩
  | .sort _ => ⟨"SearchSort", "Attempting to set sorting method a second time"⟩
  | .categories _ =>
      ⟨"SearchCategories", "Attempting to set the category filter a second time"⟩
  | .radius _ => ⟨"SearchRadius", "Attempting to set the radius filter a second time"⟩
  | .deals _ => ⟨"SearchDeals", "Attempting to set the deals search option a second time"⟩

/-- Go constant `hexMap`, used to render the two hex digits of a
percent-escape. -/
def hexMap : String := "0123456789ABCDEF"

/-- Go `shouldPercentEncode(c byte) bool`: true unless the byte is
alphanumeric or one of `-`, `.`, `_`, `~`. -/
def shouldPercentEncode (c : Nat) : Bool :=
  !((c ≥ '0'.toNat && c ≤ '9'.toNat) || (c ≥ 'A'.toNat && c ≤ 'Z'.toNat) ||
    (c ≥ 'a'.toNat && c ≤ 'z'.toNat) || c = '-'.toNat || c = '.'.toNat ||
    c = '_'.toNat || c = '~'.toNat)

/-- Rendering of one (already truncated) byte by the loop body of
`percentEncode`: unreserved bytes pass through as the character itself,
the comma byte becomes the literal `%252C`, every other byte becomes
`%XX` with uppercase hex digits from `hexMap`. -/
def percentEncodeByte (val : Nat) : String :=
  if shouldPercentEncode val then
    if val = ','.toNat then "%252C"
    else "%" ++ String.singleton (hexMap.data.getD ((val >>> 4) &&& 0x0F) '0') ++
      String.singleton (hexMap.data.getD (val &&& 0x0F) '0')
  else
    String.singleton (Char.ofNat val)

/-- Go `percentEncode(source string) string`.  Faithful to the source:
`for _, v := range source` iterates RUNES (characters), and `val :=
byte(v)` truncates each rune to its low-order byte before the test and
rendering; the buffer is modelled by the string accumulator. -/
def percentEncode (source : String) : String :=
  source.data.foldl (fun acc v => acc ++ percentEncodeByte (v.toNat % 256)) ""

/-- Go constant `nonceCharacters`: the 62-letter alphanumeric alphabet. -/
def nonceCharacters : String :=
  "abcdefghijklmnopqrstuvwxyzABCDEFGHIJKLMNOPQRSTUVWXYZ0123456789"

/-- Go constant `nonceLength = len(nonceCharacters)`. -/
def nonceLength : Nat := nonceCharacters.length

/-- Go `nonce(length int) string`.  The successive values of the global
`rand.Int()` source are modelled as an explicit stream of naturals; index
`i` of the stream is the value the i-th loop iteration draws. -/
def nonce (stream : Nat → Nat) (length : Nat) : String :=
  ⟨(List.range length).map (fun i => nonceCharacters.data.getD (stream i % nonceLength) 'a')⟩

/-- UTF-8 bytes of one character (Go strings are UTF-8; `[]byte(s)` and
`hasher.Write([]byte(...))` see these bytes). -/
def utf8Bytes (c : Char) : List Nat :=
  let n := c.toNat
  if n < 0x80 then [n]
  else if n < 0x800 then [0xC0 ||| (n >>> 6), 0x80 ||| (n &&& 0x3F)]
  else if n < 0x10000 then
    [0xE0 ||| (n >>> 12), 0x80 ||| ((n >>> 6) &&& 0x3F), 0x80 ||| (n &&& 0x3F)]
  else
    [0xF0 ||| (n >>> 18), 0x80 ||| ((n >>> 12) &&& 0x3F),
     0x80 ||| ((n >>> 6) &&& 0x3F), 0x80 ||| (n &&& 0x3F)]

/-- Byte sequence of a whole string (Go `[]byte(s)`). -/
def strBytes (s : String) : List Nat :=
  s.data.foldr (fun c acc => utf8Bytes c ++ acc) []

/-- Reduction to a 32-bit word. -/
def w32 (n : Nat) : Nat := n % 4294967296

/-- Rotate a 32-bit word left by `k` bits. -/
def rotl32 (x k : Nat) : Nat := w32 ((x <<< k) ||| (x >>> (32 - k)))

/-- Bitwise complement of a 32-bit word. -/
def not32 (x : Nat) : Nat := x ^^^ 0xFFFFFFFF

/-- Big-endian 8-byte rendering of a natural. -/
def be64 (n : Nat) : List Nat :=
  [(n >>> 56) % 256, (n >>> 48) % 256, (n >>> 40) % 256, (n >>> 32) % 256,
   (n >>> 24) % 256, (n >>> 16) % 256, (n >>> 8) % 256, n % 256]

/-- Big-endian 4-byte rendering of a 32-bit word. -/
def be32 (n : Nat) : List Nat :=
  [(n >>> 24) % 256, (n >>> 16) % 256, (n >>> 8) % 256, n % 256]

/-- SHA-1 padding: append `0x80`, zero bytes up to 56 mod 64, then the
bit length as a big-endian 64-bit integer. -/
def sha1Pad (msg : List Nat) : List Nat :=
  let len := msg.length
  let padZeros := (119 - len % 64) % 64
  msg ++ [0x80] ++ List.replicate padZeros 0 ++ be64 (len * 8)

/-- Group bytes into big-endian 32-bit words. -/
def bytesToWords : List Nat → List Nat
  | a :: b :: c :: d :: rest =>
      ((a <<< 24) ||| (b <<< 16) ||| (c <<< 8) ||| d) :: bytesToWords rest
  | _ => []

/-- Split a word list into 16-word blocks (fuel-driven; the padded
message length is always a multiple of 16 words). -/
def wordBlocks : Nat → List Nat → List (List Nat)
  | 0, _ => []
  | _, [] => []
  | fuel + 1, l => l.take 16 :: wordBlocks fuel (l.drop 16)

/-- SHA-1 message-schedule extension from 16 to 80 words. -/
def sha1Extend : Nat → List Nat → List Nat
  | 0, w => w
  | fuel + 1, w =>
      let t := w.length
      sha1Extend fuel (w ++ [rotl32 ((w.getD (t - 3) 0) ^^^ (w.getD (t - 8) 0) ^^^
        (w.getD (t - 14) 0) ^^^ (w.getD (t - 16) 0)) 1])

/-- SHA-1 round function for round `t`. -/
def sha1F (t b c d : Nat) : Nat :=
  if t < 20 then (b &&& c) ||| ((not32 b) &&& d)
  else if t < 40 then b ^^^ c ^^^ d
  else if t < 60 then (b &&& c) ||| (b &&& d) ||| (c &&& d)
  else b ^^^ c ^^^ d

/-- SHA-1 round constant for round `t`. -/
def sha1K (t : Nat) : Nat :=
  if t < 20 then 0x5A827999
  else if t < 40 then 0x6ED9EBA1
  else if t < 60 then 0x8F1BBCDC
  else 0xCA62C1D6

/-- One SHA-1 block compression over the 80-word schedule. -/
def sha1Compress (h : List Nat) (block : List Nat) : List Nat :=
  let w := sha1Extend 64 block
  let s := (List.range 80).foldl
    (fun (st : Nat × Nat × Nat × Nat × Nat) t =>
      let (a, b, c, d, e) := st
      let temp := w32 (rotl32 a 5 + sha1F t b c d + e + sha1K t + w.getD t 0)
      (temp, a, rotl32 b 30, c, d))
    (h.getD 0 0, h.getD 1 0, h.getD 2 0, h.getD 3 0, h.getD 4 0)
  [w32 (h.getD 0 0 + s.1), w32 (h.getD 1 0 + s.2.1), w32 (h.getD 2 0 + s.2.2.1),
   w32 (h.getD 3 0 + s.2.2.2.1), w32 (h.getD 4 0 + s.2.2.2.2)]

/-- SHA-1 of a byte sequence, as its 20-byte digest (Go `crypto/sha1`). -/
def sha1 (msg : List Nat) : List Nat :=
  let words := bytesToWords (sha1Pad msg)
  let blocks := wordBlocks words.length words
  let h := blocks.foldl sha1Compress
    [0x67452301, 0xEFCDAB89, 0x98BADCFE, 0x10325476, 0xC3D2E1F0]
  h.foldr (fun x acc => be32 x ++ acc) []

/-- HMAC-SHA1 (Go `crypto/hmac` with `sha1.New`): long keys are hashed,
the key is zero-padded to the 64-byte block size, and the digest is
`H(opad ++ H(ipad ++ msg))`. -/
def hmacSha1 (key msg : List Nat) : List Nat :=
  let k0 := if key.length > 64 then sha1 key else key
  let k := k0 ++ List.replicate (64 - k0.length) 0
  sha1 ((k.map (fun b => b ^^^ 0x5C)) ++ sha1 ((k.map (fun b => b ^^^ 0x36)) ++ msg))

/-- Standard base64 alphabet (Go `encoding/base64` StdEncoding). -/
def base64Alphabet : String :=
  "ABCDEFGHIJKLMNOPQRSTUVWXYZabcdefghijklmnopqrstuvwxyz0123456789+/"

/-- Character of one 6-bit group. -/
def base64Char (i : Nat) : String := String.singleton (base64Alphabet.data.getD i 'A')

/-- Go `base64.StdEncoding.EncodeToString`: 3-byte groups become four
6-bit characters, with `=` padding for a 1- or 2-byte tail. -/
def base64Encode : List Nat → String
  | a :: b :: c :: rest =>
      base64Char (a >>> 2) ++ base64Char (((a &&& 0x3) <<< 4) ||| (b >>> 4)) ++
        base64Char (((b &&& 0xF) <<< 2) ||| (c >>> 6)) ++ base64Char (c &&& 0x3F) ++
        base64Encode rest
  | [a, b] =>
      base64Char (a >>> 2) ++ base64Char (((a &&& 0x3) <<< 4) ||| (b >>> 4)) ++
        base64Char (((b &&& 0xF) <<< 2)) ++ "="
  | [a] => base64Char (a >>> 2) ++ base64Char ((a &&& 0x3) <<< 4) ++ "=="
  | [] => ""

/-- Go struct `oauth`: consumer key and token (included verbatim in the
query) and the derived HMAC key bytes. -/
structure Oauth where
  ConsumerKey : String
  Token : String
  hashKey : List Nat
deriving Repr, DecidableEq

/-- Go method `oauth.SetHashKey`: the HMAC key is
`percentEncode(consumerSecret) & percentEncode(tokenSecret)` as bytes. -/
def Oauth.SetHashKey (yoa : Oauth) (consumerSecret tokenSecret : String) : Oauth :=
  { yoa with hashKey :=
      strBytes (percentEncode consumerSecret ++ "&" ++ percentEncode tokenSecret) }

/-- Go method `oauth.Sign`.  The `rand` source behind `nonce(30)` and the
`time.Now().Unix()` timestamp are passed explicitly (`stream`, `now`) —
the test seam of spec section 8; everything else follows the source line
by line: append the five oauth elements, sort, build the `&`-joined base
string from the method, the encoded url and the encoded serialization,
HMAC-SHA1 it with the hash key, then append the percent-encoded base64
signature without re-sorting. -/
def Oauth.Sign (yoa : Oauth) (stream : Nat → Nat) (now : Int)
    (method url : String) (elements : SearchQuery) : SearchQuery :=
  let e1 := elements.Append "oauth_consumer_key" yoa.ConsumerKey
  let e2 := e1.Append "oauth_nonce" (nonce stream 30)
  let e3 := e2.Append "oauth_signature_method" "HMAC-SHA1"
  let e4 := e3.Append "oauth_timestamp" (toString now)
  let e5 := e4.Append "oauth_token" yoa.Token
  let sorted := e5.Sort
  let signature := String.intercalate "&"
    [method, percentEncode url, percentEncode sorted.serialize]
  let digest := hmacSha1 yoa.hashKey (strBytes signature)
  sorted.Append "oauth_signature" (percentEncode (base64Encode digest))

/-- Every category bit AND-ed with itself is itself and is nonzero. -/
theorem categoryMask_and_self_ne_zero (o : SearchOption) :
    o.categoryMask &&& o.categoryMask ≠ 0 := by
  cases o <;> simp only [SearchOption.categoryMask] <;> decide

/-- Distinct category bits never overlap. -/
theorem categoryMask_distinct_and_zero (o1 o2 : SearchOption)
    (h : o1.categoryMask ≠ o2.categoryMask) :
    o1.categoryMask &&& o2.categoryMask = 0 := by
  cases o1 <;> cases o2 <;>
    simp only [SearchOption.categoryMask] at h ⊢ <;>
    first | decide | exact absurd rfl h

/-- Duplicate-category behaviour shared by all eleven variants: when the
variant's category bit is already set, `Query` returns its duplicate
error and leaves the container untouched. -/
theorem query_duplicate (o : SearchOption) (sq : SearchQuery)
    (h : sq.mask &&& o.categoryMask ≠ 0) :
    o.Query sq = (some o.duplicateError, sq) := by
  cases o <;>
    simp_all [SearchOption.Query, SearchOption.categoryMask, SearchOption.duplicateError,
      SearchCoordinates.Query, SearchLocation.Query, SearchLocationCoordinates.Query,
      SearchBounds.Query, SearchTerms.Query, SearchLimit.Query, SearchOffset.Query,
      SearchSort.Query, SearchCategories.Query, SearchRadius.Query, SearchDeals.Query]

/-- Successful application shared by all eleven variants: with a valid
payload and a clear category bit, `Query` succeeds and the new mask is
the old one with the category bit OR-ed in. -/
theorem query_success (o : SearchOption) (sq : SearchQuery)
    (hv : o.validPayload = true) (hm : sq.mask &&& o.categoryMask = 0) :
    (o.Query sq).1 = none ∧ (o.Query sq).2.mask = sq.mask ||| o.categoryMask := by
  cases o <;>
    simp_all [SearchOption.Query, SearchOption.categoryMask, SearchOption.validPayload,
      SearchCoordinates.Query, SearchLocation.Query, SearchLocationCoordinates.Query,
      SearchBounds.Query, SearchTerms.Query, SearchLimit.Query, SearchOffset.Query,
      SearchSort.Query, SearchCategories.Query, SearchRadius.Query, SearchDeals.Query,
      SearchQuery.Append, SearchSortBestMatched, SearchSortHighestRated] <;>
  first
    | exact ⟨rfl, rfl⟩
    | (split
       · exact absurd ‹_› (by omega)
       · exact ⟨rfl, rfl⟩)
    | (split <;> rfl)
    | (rcases Option.isSome_iff_exists.mp hv.2 with ⟨s, hs⟩; simp [hs])

/-- C1: Mutual exclusion of option categories.  For any two option values
with valid payloads applied to a fresh container: the first application
succeeds; if the two options belong to the same category (the four
location-family variants share one category bit) the second application
fails with that variant's duplicate-option error and leaves the container
unchanged; if they belong to different categories the second application
succeeds as well.  The quantification over both orders is the symmetry of
`o1`/`o2`. -/
theorem mutualExclusionOfOptionCategories (o1 o2 : SearchOption)
    (h1 : o1.validPayload = true) (h2 : o2.validPayload = true) :
    (o1.Query emptySearchQuery).1 = none ∧
    (o1.categoryMask = o2.categoryMask →
      o2.Query (o1.Query emptySearchQuery).2 =
        (some o2.duplicateError, (o1.Query emptySearchQuery).2)) ∧
    (o1.categoryMask ≠ o2.categoryMask →
      (o2.Query (o1.Query emptySearchQuery).2).1 = none) := by
  have hs1 := query_success o1 emptySearchQuery h1 (by simp [emptySearchQuery])
  refine ⟨hs1.1, ?_, ?_⟩
  · intro hcat
    apply query_duplicate
    rw [hs1.2, ← hcat]
    simpa [emptySearchQuery] using categoryMask_and_self_ne_zero o1
  · intro hcat
    refine (query_success o2 _ h2 ?_).1
    rw [hs1.2]
    simpa [emptySearchQuery] using categoryMask_distinct_and_zero o1 o2 hcat

/-- Concrete instance of C1: two limits collide, a limit and a radius do
not. -/
theorem mutualExclusionOfOptionCategories_witness :
    ((SearchOption.limit 5).Query emptySearchQuery).1 = none ∧
    (SearchOption.limit 3).Query ((SearchOption.limit 5).Query emptySearchQuery).2 =
      (some ((SearchOption.limit 3).duplicateError),
        ((SearchOption.limit 5).Query emptySearchQuery).2) ∧
    ((SearchOption.radius 100).Query ((SearchOption.limit 5).Query emptySearchQuery).2).1 =
      none := by
  have t1 := mutualExclusionOfOptionCategories (.limit 5) (.limit 3) (by decide) (by decide)
  have t2 := mutualExclusionOfOptionCategories (.limit 5) (.radius 100) (by decide) (by decide)
  exact ⟨t1.1, t1.2.1 rfl, t2.2.2 (by decide)⟩

/-- C10: Flag preservation on failure.  Whenever an option application
returns an error — duplicate or invalid payload — the container's
conflict-flag mask afterwards is exactly the mask before the call: every
error path in every variant returns before the `mask |=` statement. -/
theorem flagPreservationOnFailure (o : SearchOption) (sq : SearchQuery)
    (h : (o.Query sq).1.isSome = true) :
    (o.Query sq).2.mask = sq.mask := by
  cases o <;>
    simp only [SearchOption.Query, SearchCoordinates.Query, SearchLocation.Query,
      SearchLocationCoordinates.Query, SearchBounds.Query, SearchTerms.Query,
      SearchLimit.Query, SearchOffset.Query, SearchSort.Query, SearchCategories.Query,
      SearchRadius.Query, SearchDeals.Query] at h ⊢ <;>
    (repeat' split at h) <;> simp_all [SearchQuery.Append]

/-- Concrete instance of C10: the failing `Limit(25)` call leaves the
fresh container's mask at zero. -/
theorem flagPreservationOnFailure_witness :
    ((SearchOption.limit 25).Query emptySearchQuery).1.isSome = true ∧
    ((SearchOption.limit 25).Query emptySearchQuery).2.mask = emptySearchQuery.mask := by
  exact ⟨by decide, flagPreservationOnFailure (.limit 25) emptySearchQuery (by decide)⟩

/-- C2 counterexample: applying `LocationWithHint` with an out-of-range
latitude to a fresh container returns an error, yet the container has
been mutated — the `location` element was appended before the coordinate
check, so the claimed atomicity of failed applications is false. -/
theorem atomicityOnFailure_counterexample :
    ((SearchOption.locationCoordinates ⟨"a", 100, 0⟩).Query emptySearchQuery).1.isSome = true ∧
    ((SearchOption.locationCoordinates ⟨"a", 100, 0⟩).Query emptySearchQuery).2 ≠
      emptySearchQuery := by
  decide

/-- C2 amended: a failing option application leaves the container exactly
as it was, EXCEPT the invalid-coordinate failure of
`SearchLocationCoordinates`, which has already appended the `location`
element (spaces replaced by `+`) when it returns; even then the mask is
untouched (see C10). -/
theorem atomicityOnFailureAmended (o : SearchOption) (sq : SearchQuery)
    (h : (o.Query sq).1.isSome = true) :
    (o.Query sq).2 = sq ∨
    (∃ l la lo, o = .locationCoordinates ⟨l, la, lo⟩ ∧
      sq.mask &&& searchBitMaskLocation = 0 ∧
      validLatitudeLongitude la lo = false ∧
      (o.Query sq).2 = sq.Append searchIdentifierLocation (replaceSpaceWithPlus l)) := by
  cases o <;>
    simp only [SearchOption.Query, SearchCoordinates.Query, SearchLocation.Query,
      SearchLocationCoordinates.Query, SearchBounds.Query, SearchTerms.Query,
      SearchLimit.Query, SearchOffset.Query, SearchSort.Query, SearchCategories.Query,
      SearchRadius.Query, SearchDeals.Query] at h ⊢ <;>
    (repeat' split at h) <;> simp_all
  case locationCoordinates.isFalse.isTrue slc hmask hinv =>
    exact Or.inr ⟨slc.Location, slc.Latitude, slc.Longitude, rfl, hinv, rfl⟩

/-- Concrete instance of the amended C2: the failing `Limit(25)` call
leaves the fresh container untouched. -/
theorem atomicityOnFailureAmended_witness :
    ((SearchOption.limit 25).Query emptySearchQuery).2 = emptySearchQuery ∨
    (∃ l la lo, SearchOption.limit 25 = .locationCoordinates ⟨l, la, lo⟩ ∧
      emptySearchQuery.mask &&& searchBitMaskLocation = 0 ∧
      validLatitudeLongitude la lo = false ∧
      ((SearchOption.limit 25).Query emptySearchQuery).2 =
        emptySearchQuery.Append searchIdentifierLocation (replaceSpaceWithPlus l)) := by
  exact atomicityOnFailureAmended (.limit 25) emptySearchQuery (by decide)

/-- C9 counterexample: `SearchTerms.Query` writes back into the caller's
term list — after applying `Terms(["a b"])` the caller's slice holds
`"a+b"`, so option values are not left unchanged. -/
theorem statelessnessOfOptions_counterexample :
    (SearchTerms.Query ["a b"] emptySearchQuery).2.2 = ["a+b"] ∧
    (SearchTerms.Query ["a b"] emptySearchQuery).2.2 ≠ ["a b"] := by
  decide

/-- C9 amended: only `SearchTerms` carries caller-visible mutable state;
its application rewrites the caller's slice, replacing the spaces of
every term with `+` — unless it fails on the duplicate check, in which
case the slice is untouched. -/
theorem termsSliceMutation (st : List String) (sq : SearchQuery) :
    (SearchTerms.Query st sq).2.2 =
      if sq.mask &&& searchBitMaskTerm ≠ 0 then st
      else st.map replaceSpaceWithPlus := by
  unfold SearchTerms.Query
  split <;> rfl

/-- C6 counterexample: `Location("")` and `Terms([])` both SUCCEED
against a fresh container — the code has no non-emptiness validation for
either, contradicting the claimed `InvalidValue` failures. -/
theorem nonEmptyValidation_counterexample :
    ((SearchOption.location "").Query emptySearchQuery).1 = none ∧
    ((SearchOption.terms []).Query emptySearchQuery).1 = none := by
  decide

/-- C6 amended: applying `Location("")` to a fresh container succeeds,
appending `location=` (empty value) and setting the location flag;
applying `Terms([])` succeeds, appending `term=` (empty value) and
setting the term flag.  Neither option validates non-emptiness. -/
theorem emptyPayloadBehavior :
    (SearchOption.location "").Query emptySearchQuery =
      (none, ⟨[⟨searchIdentifierLocation, ""⟩], searchBitMaskLocation⟩) ∧
    (SearchOption.terms []).Query emptySearchQuery =
      (none, ⟨[⟨searchIdentifierTerm, ""⟩], searchBitMaskTerm⟩) := by
  decide

/-- C7: Numeric range validation.  Against a fresh container, `Limit(n)`
succeeds and appends `limit=<decimal n>` exactly when `0 ≤ n ≤ 20` and
otherwise fails with the invalid-value error leaving the container
untouched; `Radius(n)` succeeds and appends `radius_filter=<decimal n>`
exactly when `0 ≤ n ≤ 40000` and otherwise fails likewise. -/
theorem numericRangeValidation (n : Int) :
    ((0 ≤ n ∧ n ≤ 20) → (SearchOption.limit n).Query emptySearchQuery =
      (none, ⟨[⟨searchIdentifierLimit, toString n⟩], searchBitMaskLimit⟩)) ∧
    (¬(0 ≤ n ∧ n ≤ 20) → (SearchOption.limit n).Query emptySearchQuery =
      (some ⟨"SearchLimit", "Invalid search limit: " ++ toString n⟩,
        emptySearchQuery)) ∧
    ((0 ≤ n ∧ n ≤ 40000) → (SearchOption.radius n).Query emptySearchQuery =
      (none, ⟨[⟨searchIdentifierRadius, toString n⟩], searchBitMaskRadius⟩)) ∧
    (¬(0 ≤ n ∧ n ≤ 40000) → (SearchOption.radius n).Query emptySearchQuery =
      (some ⟨"SearchRadius", "Invalid radius specified: " ++ toString n⟩,
        emptySearchQuery)) := by
  refine ⟨fun h => ?_, fun h => ?_, fun h => ?_, fun h => ?_⟩ <;>
    simp only [SearchOption.Query, SearchLimit.Query, SearchRadius.Query,
      SearchQuery.Append, emptySearchQuery] <;>
    (repeat' split) <;>
    first
      | rfl
      | (exact absurd ‹_› (by decide))
      | (exfalso
         simp only [decide_eq_true_eq, Bool.or_eq_true] at *
         omega)

/-- Concrete instances of C7: `Limit(1)` succeeds, `Limit(25)` fails,
`Radius(40000)` succeeds, `Radius(40001)` fails. -/
theorem numericRangeValidation_witness :
    (SearchOption.limit 1).Query emptySearchQuery =
      (none, ⟨[⟨searchIdentifierLimit, toString (1 : Int)⟩], searchBitMaskLimit⟩) ∧
    (SearchOption.limit 25).Query emptySearchQuery =
      (some ⟨"SearchLimit", "Invalid search limit: " ++ toString (25 : Int)⟩,
        emptySearchQuery) ∧
    (SearchOption.radius 40000).Query emptySearchQuery =
      (none, ⟨[⟨searchIdentifierRadius, toString (40000 : Int)⟩], searchBitMaskRadius⟩) ∧
    (SearchOption.radius 40001).Query emptySearchQuery =
      (some ⟨"SearchRadius", "Invalid radius specified: " ++ toString (40001 : Int)⟩,
        emptySearchQuery) := by
  exact ⟨(numericRangeValidation 1).1 (by decide),
    (numericRangeValidation 25).2.1 (by decide),
    (numericRangeValidation 40000).2.2.1 (by decide),
    (numericRangeValidation 40001).2.2.2 (by decide)⟩

/-- C8: Sort postcondition.  After `Sort()` the element names are
non-decreasing under string comparison (Lean's `String ≤` is
lexicographic on code points, which for UTF-8 strings coincides with Go's
byte-wise `<` because UTF-8 is order-preserving), and the resulting
element sequence is a permutation of the one before the call — nothing
added, removed or altered. -/
theorem sortPostcondition (sq : SearchQuery) :
    List.Pairwise (fun a b : searchQueryElement => a.Name ≤ b.Name) sq.Sort.queries ∧
    List.Perm sq.Sort.queries sq.queries := by
  constructor
  · have h := @List.sorted_mergeSort searchQueryElement
      (fun a b => decide (a.Name ≤ b.Name))
      (fun a b c hab hbc => by
        simp only [decide_eq_true_eq] at *
        exact le_trans hab hbc)
      (fun a b => by simpa using le_total a.Name b.Name)
      sq.queries
    unfold SearchQuery.Sort
    simpa using h
  · exact List.mergeSort_perm sq.queries _

/-- Folding string concatenation from an arbitrary accumulator hoists the
accumulator out front. -/
theorem foldl_string_append_hoist (l : List String) (x : String) :
    l.foldl (fun r s => r ++ s) x = x ++ l.foldl (fun r s => r ++ s) "" := by
  induction l generalizing x with
  | nil => simp
  | cons y l ih =>
      simp only [List.foldl_cons]
      rw [ih (x ++ y), ih ("" ++ y), String.empty_append, String.append_assoc]

/-- Unfolding of `String.join` on a cons cell. -/
theorem stringJoin_cons (x : String) (l : List String) :
    String.join (x :: l) = x ++ String.join l := by
  show List.foldl (fun r s => r ++ s) "" (x :: l) = x ++ List.foldl (fun r s => r ++ s) "" l
  rw [List.foldl_cons, String.empty_append, foldl_string_append_hoist]

/-- The buffer loop of `percentEncode` is the concatenation of the
per-character renderings. -/
theorem percentEncode_foldl (l : List Char) (acc : String) :
    l.foldl (fun acc v => acc ++ percentEncodeByte (v.toNat % 256)) acc =
      acc ++ String.join (l.map (fun c => percentEncodeByte (c.toNat % 256))) := by
  induction l generalizing acc with
  | nil => simp [String.join]
  | cons c l ih =>
      simp only [List.foldl_cons, List.map_cons]
      rw [ih, stringJoin_cons, String.append_assoc]

/-- Closed form of `percentEncode`: one rendering per character of the
input, of that character's low-order byte. -/
theorem percentEncode_eq_join (s : String) :
    percentEncode s =
      String.join (s.data.map (fun c => percentEncodeByte (c.toNat % 256))) := by
  unfold percentEncode
  rw [percentEncode_foldl, String.empty_append]

/-- C5: Percent-encoder multi-byte truncation.  `percentEncode` iterates
the input as a sequence of characters (runes), truncates each to its
low-order byte (`c.toNat % 256`), and emits exactly one rendering per
character — NOT one `%XX` per constituent UTF-8 byte. -/
theorem percentEncodeTruncatesPerCharacter (s : String) :
    percentEncode s =
      String.join (s.data.map (fun c => percentEncodeByte (c.toNat % 256))) :=
  percentEncode_eq_join s

/-- Rendering of one byte as the spec's section 4.1 words it (written
from the spec, not the source, for the refinement comparison): bytes in
`[A-Za-z0-9-._~]` pass through unchanged, the comma byte becomes the
literal `%252C`, and every other byte becomes `%XX` with the uppercase
hexadecimal of its value. -/
def specByteRendering (b : Nat) : String :=
  if ('A'.toNat ≤ b ∧ b ≤ 'Z'.toNat) ∨ ('a'.toNat ≤ b ∧ b ≤ 'z'.toNat) ∨
      ('0'.toNat ≤ b ∧ b ≤ '9'.toNat) ∨ b = '-'.toNat ∨ b = '.'.toNat ∨
      b = '_'.toNat ∨ b = '~'.toNat then
    String.singleton (Char.ofNat b)
  else if b = ','.toNat then "%252C"
  else
    "%" ++ String.singleton ("0123456789ABCDEF".data.getD (b / 16) '0') ++
      String.singleton ("0123456789ABCDEF".data.getD (b % 16) '0')

/-- The spec's byte-wise percent-encoding contract: the concatenation of
the per-byte renderings of the input's UTF-8 bytes, in order. -/
def percentEncodeSpecBytewise (s : String) : String :=
  String.join ((strBytes s).map specByteRendering)

set_option maxRecDepth 4096 in
/-- On any single byte value the implementation's rendering agrees with
the spec's rendering — the divergence of C3 is only in WHAT is iterated
(characters vs bytes). -/
theorem percentEncodeByte_eq_spec : ∀ b < 256, percentEncodeByte b = specByteRendering b := by
  decide

/-- C3 counterexample: on the one-character input `"é"` (UTF-8 bytes
`C3 A9`) the implementation truncates the character to the single byte
`E9` and emits `%E9`, while the claimed per-byte contract demands
`%C3%A9`; the two disagree, so the byte-wise contract is false. -/
theorem percentEncodingContract_counterexample :
    percentEncode "é" = "%E9" ∧ percentEncodeSpecBytewise "é" = "%C3%A9" ∧
    percentEncode "é" ≠ percentEncodeSpecBytewise "é" := by
  decide

/-- List form of the ASCII refinement: on all-ASCII character lists the
per-character renderings coincide with the per-UTF-8-byte spec
renderings. -/
theorem asciiRenderings_eq (l : List Char) (h : ∀ c ∈ l, c.toNat < 128) :
    String.join (l.map (fun c => percentEncodeByte (c.toNat % 256))) =
      String.join ((l.foldr (fun c acc => utf8Bytes c ++ acc) []).map specByteRendering) := by
  induction l with
  | nil => rfl
  | cons c l ih =>
      have hc : c.toNat < 128 := h c (by simp)
      have hb : utf8Bytes c = [c.toNat] := by unfold utf8Bytes; rw [if_pos hc]
      simp only [List.map_cons, List.foldr_cons, hb, List.cons_append, List.nil_append]
      rw [stringJoin_cons, stringJoin_cons, Nat.mod_eq_of_lt (lt_trans hc (by norm_num)),
        percentEncodeByte_eq_spec c.toNat (lt_trans hc (by norm_num)),
        ih (fun d hd => h d (by simp [hd]))]

/-- C3 amended: restricted to inputs whose characters are all ASCII
(code point < 128) — where rune-truncation is the identity and every
character is one UTF-8 byte — `percentEncode` satisfies the spec's
byte-wise contract exactly: unreserved bytes pass through, the comma
becomes `%252C`, every other byte becomes uppercase `%XX`, and the empty
input yields the empty string. -/
theorem percentEncodingContractAmended (s : String)
    (h : ∀ c ∈ s.data, c.toNat < 128) :
    percentEncode s = percentEncodeSpecBytewise s := by
  rw [percentEncode_eq_join]
  unfold percentEncodeSpecBytewise strBytes
  exact asciiRenderings_eq s.data h

/-- Concrete instance of the amended C3, covering a space, a comma, an
unreserved run and emptiness-adjacent behaviour. -/
theorem percentEncodingContractAmended_witness :
    percentEncode "a,b c-_." = percentEncodeSpecBytewise "a,b c-_." :=
  percentEncodingContractAmended "a,b c-_." (by decide)

/-- Three-element `strings.Join` with `&` is the double concatenation. -/
theorem intercalate_amp_three (a b c : String) :
    String.intercalate "&" [a, b, c] = a ++ "&" ++ b ++ "&" ++ c := rfl

/-- Sorting does not change the number of elements. -/
theorem sort_length (q : SearchQuery) :
    q.Sort.queries.length = q.queries.length :=
  (List.mergeSort_perm q.queries _).length_eq

/-- C4: Signing procedure.  `Sign` appends exactly the five oauth
elements (consumer key, 30-character nonce, `HMAC-SHA1` method marker,
decimal timestamp, token), sorts the container, computes the signature
over the base string `method & percentEncode(url) &
percentEncode(serialized sorted container)` as HMAC-SHA1 keyed by the
hash key, base64- then percent-encodes it, and appends it as
`oauth_signature` without re-sorting — so the result is that exact
composition, holds six more elements than the input, and always ends in
an element named `oauth_signature`. -/
theorem signProcedure (yoa : Oauth) (stream : Nat → Nat) (now : Int)
    (method url : String) (sq : SearchQuery) :
    yoa.Sign stream now method url sq =
      (let s5 := ((((sq.Append "oauth_consumer_key" yoa.ConsumerKey).Append
        "oauth_nonce" (nonce stream 30)).Append
        "oauth_signature_method" "HMAC-SHA1").Append
        "oauth_timestamp" (toString now)).Append "oauth_token" yoa.Token
      s5.Sort.Append "oauth_signature"
        (percentEncode (base64Encode (hmacSha1 yoa.hashKey (strBytes
          (method ++ "&" ++ percentEncode url ++ "&" ++
            percentEncode s5.Sort.serialize)))))) ∧
    (yoa.Sign stream now method url sq).queries.length = sq.queries.length + 6 ∧
    (∃ sig, (yoa.Sign stream now method url sq).queries.getLast? =
      some ⟨"oauth_signature", sig⟩) := by
  have heq : yoa.Sign stream now method url sq =
      (let s5 := ((((sq.Append "oauth_consumer_key" yoa.ConsumerKey).Append
        "oauth_nonce" (nonce stream 30)).Append
        "oauth_signature_method" "HMAC-SHA1").Append
        "oauth_timestamp" (toString now)).Append "oauth_token" yoa.Token
      s5.Sort.Append "oauth_signature"
        (percentEncode (base64Encode (hmacSha1 yoa.hashKey (strBytes
          (method ++ "&" ++ percentEncode url ++ "&" ++
            percentEncode s5.Sort.serialize)))))) := by
    unfold Oauth.Sign
    simp only [intercalate_amp_three]
  refine ⟨heq, ?_, ?_⟩
  · rw [heq]
    simp only [SearchQuery.Append, List.length_append]
    rw [sort_length]
    simp [SearchQuery.Append]
  · rw [heq]
    exact ⟨_, List.getLast?_concat _⟩
